import Mathlib

/-!
Shallow embedding of the mutation pipeline of the quack mutating-admission
controller (package `pkg/quack`, entry point `Admit` in `cmd/quack/main.go`).

The raw admission object is an arbitrary JSON document; we embed it as the
inductive `Json` below, and the raw bytes the Go code manipulates are the
deterministic serialization `Json.render`.  Go maps of annotations are
embedded as association lists; the unspecified iteration order of a Go map
is made explicit as a `visit : List String` parameter where the source
ranges over a map.  External collaborators (the values ConfigMap fetch and
the RFC 6902 structural-diff primitive) are parameters of `Admit`, exactly
as the spec classifies them as external interfaces.
-/

set_option autoImplicit false

namespace Quack

/-! ### Character-list utilities

All string manipulation is done on `List Char` (the underlying data of
`String`) with structurally recursive functions, mirroring the handful of
`strings` package calls made by the source. -/

/-- Boolean prefix test on character lists (models `strings.HasPrefix`). -/
def listIsPre : List Char → List Char → Bool
  | [], _ => true
  | _ :: _, [] => false
  | p :: ps, c :: cs => p == c && listIsPre ps cs

/-- Whitespace as recognised by the template engine's trim markers. -/
def isTmplSpace (c : Char) : Bool :=
  c == ' ' || c == '\t' || c == '\n' || c == '\r'

/-- Drop leading template whitespace. -/
def skipSpacesL : List Char → List Char
  | [] => []
  | c :: rest => if isTmplSpace c then skipSpacesL rest else c :: rest

/-- Drop trailing template whitespace. -/
def dropTrailingSpacesL (s : List Char) : List Char :=
  (skipSpacesL s.reverse).reverse

/-- Identifier characters of a template field name. -/
def isIdentChar (c : Char) : Bool :=
  c.isAlphanum || c == '_'

/-- Split the longest identifier off the front of the input. -/
def takeIdentL : List Char → List Char × List Char
  | [] => ([], [])
  | c :: rest =>
    if isIdentChar c then
      let (i, r) := takeIdentL rest
      (c :: i, r)
    else ([], c :: rest)

/-- Encode one annotation key the way `getTemplateInput` builds a JSON
pointer from it: `strings.Replace(annotation, "/", "~1", -1)`.  Note that
`~` itself is NOT escaped (the source never writes `~0`). -/
def encodeAnnKeyL : List Char → List Char
  | [] => []
  | c :: rest => if c == '/' then '~' :: '1' :: encodeAnnKeyL rest else c :: encodeAnnKeyL rest

/-- Decode one JSON-pointer segment as the RFC 6902 apply primitive does
(`~1` becomes `/`, `~0` becomes `~`, single left-to-right pass). -/
def decodePtrSeg : List Char → List Char
  | '~' :: '1' :: rest => '/' :: decodePtrSeg rest
  | '~' :: '0' :: rest => '~' :: decodePtrSeg rest
  | c :: rest => c :: decodePtrSeg rest
  | [] => []

/-- Split a character list on `/` (pointer segmentation of the RFC 6902
apply primitive; the leading empty segment is stripped by the caller). -/
def splitSlashAux (cur : List Char) : List Char → List String
  | [] => [String.mk cur.reverse]
  | c :: rest =>
    if c == '/' then String.mk cur.reverse :: splitSlashAux [] rest
    else splitSlashAux (c :: cur) rest

/-- Split on `/`. -/
def splitSlash (s : List Char) : List String :=
  splitSlashAux [] s

/-! ### JSON documents -/

/-- A JSON document.  Objects are ordered association lists: the order is
the textual order of the document's fields. -/
inductive Json where
  | str : String → Json
  | num : Int → Json
  | jbool : Bool → Json
  | null : Json
  | arr : List Json → Json
  | obj : List (String × Json) → Json

/-- JSON string escaping used by the serializer. -/
def jsonEscapeChar (c : Char) : String :=
  if c == '"' then "\\\""
  else if c == '\\' then "\\\\"
  else String.singleton c

/-- Escape a string for inclusion in serialized JSON. -/
def jsonEscape (s : String) : String :=
  String.join (s.data.map jsonEscapeChar)

mutual

/-- Deterministic serialization of a document: this is the byte string the
Go code sees as the raw object. -/
def Json.render : Json → String
  | .str s => "\"" ++ jsonEscape s ++ "\""
  | .num n => toString n
  | .jbool b => if b then "true" else "false"
  | .null => "null"
  | .arr xs => "[" ++ renderElems xs ++ "]"
  | .obj fs => "\x7b" ++ renderFields fs ++ "\x7d"

/-- Serialize array elements, comma separated. -/
def renderElems : List Json → String
  | [] => ""
  | [x] => Json.render x
  | x :: y :: rest => Json.render x ++ "," ++ renderElems (y :: rest)

/-- Serialize object fields, comma separated. -/
def renderFields : List (String × Json) → String
  | [] => ""
  | [(k, v)] => "\"" ++ jsonEscape k ++ "\":" ++ Json.render v
  | (k, v) :: f :: rest =>
    "\"" ++ jsonEscape k ++ "\":" ++ Json.render v ++ "," ++ renderFields (f :: rest)

end

/-- First value bound to a key in an object's field list. -/
def lookupJ (k : String) : List (String × Json) → Option Json
  | [] => none
  | (k2, v) :: rest => if k2 == k then some v else lookupJ k rest

/-- Remove the binding of a key from an object's field list. -/
def eraseKeyJ (k : String) : List (String × Json) → List (String × Json)
  | [] => []
  | (k2, v) :: rest => if k2 == k then rest else (k2, v) :: eraseKeyJ k rest

/-- Replace the value bound to a key in an object's field list. -/
def setKeyJ (k : String) (v : Json) : List (String × Json) → List (String × Json)
  | [] => []
  | (k2, w) :: rest => if k2 == k then (k2, v) :: rest else (k2, w) :: setKeyJ k v rest

/-! ### Object metadata (`getObjectMeta`, `requestHasAnnotation`) -/

/-- Interpret an object's `annotations` fields as a string-to-string map,
as unmarshalling into `metav1.ObjectMeta` does; a non-string value is an
unmarshal error. -/
def annPairs : List (String × Json) → Except String (List (String × String))
  | [] => .ok []
  | (k, Json.str v) :: rest =>
    match annPairs rest with
    | .ok l => .ok ((k, v) :: l)
    | .error e => .error e
  | (k, _) :: _ => .error ("cannot unmarshal annotation " ++ k ++ " into string")

/-- Models `getObjectMeta`: unmarshal the raw object into a struct holding
`metadata` and extract its `annotations` map (absent pieces give the empty
map, mismatched types fail). -/
def getObjectMeta (o : Json) : Except String (List (String × String)) :=
  match o with
  | Json.obj fs =>
    match lookupJ "metadata" fs with
    | none => .ok []
    | some Json.null => .ok []
    | some (Json.obj ms) =>
      match lookupJ "annotations" ms with
      | none => .ok []
      | some Json.null => .ok []
      | some (Json.obj afs) =>
        match annPairs afs with
        | .ok l => .ok l
        | .error e => .error ("failed to unmarshal input: " ++ e)
      | some _ => .error "failed to unmarshal input: annotations is not an object"
    | some _ => .error "failed to unmarshal input: metadata is not an object"
  | _ => .error "failed to unmarshal input: top level is not an object"

/-- Models `requestHasAnnotation`: the gate is disabled by the empty
required key, otherwise presence of the key is checked (value ignored). -/
def requestHasAnnKey (required : String) (o : Json) : Except String Bool :=
  if required = "" then .ok true
  else
    match getObjectMeta o with
    | .error e => .error ("error reading object metadata: " ++ e)
    | .ok anns => .ok (anns.lookup required).isSome

/-! ### Delimiter resolution (`getDelims`) -/

/-- The pair of template delimiters carried by `delimiters` in the source. -/
structure delimiters where
  left : String
  right : String

/-- The left-delimiter annotation key (`leftDelimAnnotation` in the source). -/
def leftDelimAnnKey : String := "quack.pusher.com/left-delim"

/-- The right-delimiter annotation key (`rightDelimAnnotation` in the source). -/
def rightDelimAnnKey : String := "quack.pusher.com/right-delim"

/-- The case analysis of `getDelims` on the two annotation lookups:
`lOk != rOk` is an error, neither set is the zero pair, an empty set value
is an error, otherwise the pair is returned. -/
def getDelimsFromAnns (anns : List (String × String)) : Except String delimiters :=
  match anns.lookup leftDelimAnnKey, anns.lookup rightDelimAnnKey with
  | none, none => .ok ⟨"", ""⟩
  | some _, none =>
    .error ("must set either both " ++ leftDelimAnnKey ++ " and " ++ rightDelimAnnKey ++ ", or neither")
  | none, some _ =>
    .error ("must set either both " ++ leftDelimAnnKey ++ " and " ++ rightDelimAnnKey ++ ", or neither")
  | some l, some r =>
    if l = "" ∨ r = "" then .error "delimiters must not be empty"
    else .ok ⟨l, r⟩

/-- Models `getDelims` (it performs the same unmarshal as `getObjectMeta`
on its own, then inspects the two delimiter annotations). -/
def getDelims (o : Json) : Except String delimiters :=
  match getObjectMeta o with
  | .error e => .error e
  | .ok anns => getDelimsFromAnns anns

/-! ### Sanitizer (`getTemplateInput` and the RFC 6902 remove primitive) -/

/-- Remove the value at a decoded pointer path.  Models the `remove`
operation of the external RFC 6902 apply primitive (`applyPatch` in the
source) on object paths: removing a nonexistent key is an error. -/
def removeAtPtr : List String → Json → Except String Json
  | [k], Json.obj fs =>
    let dk := String.mk (decodePtrSeg k.data)
    match lookupJ dk fs with
    | some _ => .ok (Json.obj (eraseKeyJ dk fs))
    | none => .error ("unable to apply patch: unable to remove nonexistent key: " ++ dk)
  | k :: rest, Json.obj fs =>
    let dk := String.mk (decodePtrSeg k.data)
    match lookupJ dk fs with
    | some v =>
      match removeAtPtr rest v with
      | .ok v2 => .ok (Json.obj (setKeyJ dk v2 fs))
      | .error e => .error e
    | none => .error ("unable to apply patch: missing path segment: " ++ dk)
  | _, _ => .error "unable to apply patch: invalid path"

/-- Apply a single-operation `remove` patch at the given pointer, as the
patch built inside `getTemplateInput` is decoded and applied. -/
def applyRemovePatch (o : Json) (path : String) : Except String Json :=
  match path.data with
  | '/' :: rest => removeAtPtr (splitSlash rest) o
  | _ => .error "unable to decode patch: invalid pointer"

/-- The JSON pointer `getTemplateInput` writes for an annotation key. -/
def annKeyPath (k : String) : String :=
  "/metadata/annotations/" ++ String.mk (encodeAnnKeyL k.data)

/-- The loop of `getTemplateInput` over the annotation map, `visit` being
the iteration order of the Go map.  Each matching key's removal patch is
applied to `o` — the ORIGINAL raw object, as in the source — and the
accumulator holds the result of the latest removal (`nil` when no key
matched). -/
def gtiLoop (o : Json) : List String → Option Json → Except String (Option Json)
  | [], acc => .ok acc
  | k :: rest, acc =>
    if listIsPre "quack.pusher.com".data k.data then
      match applyRemovePatch o (annKeyPath k) with
      | .ok d => gtiLoop o rest (some d)
      | .error e => .error ("error removing annotation " ++ k ++ ": " ++ e)
    else gtiLoop o rest acc

/-- Models `getTemplateInput`: read the metadata, then strip the
`quack.pusher.com`-prefixed annotations one patch at a time.  The result
is `some` sanitized document, or `none` for Go's `nil` byte slice when the
loop never fired. -/
def getTemplateInput (visit : List String) (o : Json) : Except String (Option Json) :=
  match getObjectMeta o with
  | .error e => .error ("error reading object metadata: " ++ e)
  | .ok _ => gtiLoop o visit none

/-! ### Template renderer (`renderTemplate`)

The source imports `html/template` and runs
`template.New("object").Delims(l, r).Parse(string(input))` followed by
`Execute(buff, values)` with `values : map[string]string`.  We embed the
engine for the fragment the pipeline exercises: literal text interleaved
with variable-reference actions `.Name` (with optional whitespace-trim
markers), restricted throughout to inputs whose literal text stays in the
engine's plain-text HTML context — which a JSON document free of markup
does — where every substituted value passes through the HTML escaper and
execution cannot fail.  The restriction is a real one: on inputs whose
literal text enters other HTML contexts the engine's escape-time context
analysis picks different escapers (in a script element an absent name is
rendered by the JS value escaper as a quoted string, not as empty
output) and can even fail `Execute` on a parse-OK template that ends in
a non-text context.  That divergence is outside this embedding; every
theorem below that mentions the renderer either evaluates it on concrete
markup-free inputs, on which the embedding and `html/template` agree
byte for byte, or quantifies only over the embedding's parse results.
A variable lookup on the string-valued map yields the zero value `""`
when the name is absent; malformed action syntax is a parse error. -/

/-- One parsed template segment: literal text or a variable reference. -/
inductive Seg where
  | lit : String → Seg
  | var : String → Seg

/-- Find the first occurrence of delimiter `d`, returning the text before
it and the input after it.  An empty `d` never matches. -/
def findDelim (d : List Char) : List Char → Option (List Char × List Char)
  | [] => none
  | c :: rest =>
    if d ≠ [] ∧ listIsPre d (c :: rest) = true then some ([], (c :: rest).drop d.length)
    else
      match findDelim d rest with
      | some (pre, post) => some (c :: pre, post)
      | none => none

/-- Parse a template into segments.  `L`/`R` are the action delimiters,
the fuel is bounded by the input length (each recursive step consumes the
nonempty left delimiter). -/
def parseSegs (L R : List Char) : Nat → List Char → Except String (List Seg)
  | 0, _ => .error "action parsing exceeded input"
  | fuel + 1, s =>
    match findDelim L s with
    | none => .ok [Seg.lit (String.mk s)]
    | some (before, rest) =>
      let lt : Bool :=
        match rest with
        | '-' :: c :: _ => isTmplSpace c
        | _ => false
      let rest1 := if lt then rest.drop 1 else rest
      let rest2 := skipSpacesL rest1
      match rest2 with
      | '.' :: tl =>
        let (nm, rest3) := takeIdentL tl
        if nm.isEmpty then .error "unexpected character in action"
        else
          let rest4 := skipSpacesL rest3
          let rt : Bool :=
            match rest4 with
            | '-' :: tl2 => listIsPre R tl2
            | _ => false
          let rest5 := if rt then rest4.drop 1 else rest4
          if listIsPre R rest5 then
            let after := rest5.drop R.length
            let after2 := if rt then skipSpacesL after else after
            let beforeOut := if lt then dropTrailingSpacesL before else before
            match parseSegs L R fuel after2 with
            | .ok segs => .ok (Seg.lit (String.mk beforeOut) :: Seg.var (String.mk nm) :: segs)
            | .error e => .error e
          else .error "bad character in action"
      | _ => .error "unexpected character in action"

/-- The HTML escaper applied by `html/template` to values substituted in
text context. -/
def htmlEscapeChar (c : Char) : String :=
  if c == '&' then "&amp;"
  else if c == '<' then "&lt;"
  else if c == '>' then "&gt;"
  else if c == '"' then "&#34;"
  else if c == Char.ofNat 39 then "&#39;"
  else if c == Char.ofNat 0 then "�"
  else String.singleton c

/-- HTML-escape a whole substituted value. -/
def htmlEscapeStr (s : String) : String :=
  String.join (s.data.map htmlEscapeChar)

/-- Evaluate one segment against the values map: literals pass through,
variable references look the name up (absent names give the map's zero
value `""`) and the result is escaped.  This fixes the text-context HTML
escaper, which is the escaper `html/template` selects when the
surrounding literal text never leaves the plain-text context (true of
markup-free JSON); in other contexts the engine substitutes
context-sensitive escapers instead, which this embedding does not
model. -/
def execSeg (values : List (String × String)) : Seg → String
  | .lit s => s
  | .var n => htmlEscapeStr ((values.lookup n).getD "")

/-- Evaluate all segments and concatenate the output. -/
def execSegs (values : List (String × String)) (segs : List Seg) : String :=
  String.join (segs.map (execSeg values))

/-- An empty configured delimiter stands for the engine's default
(`Delims` documents empty strings as "use the default"). -/
def effDelim (s dflt : String) : String :=
  if s = "" then dflt else s

/-- Parse a template under a delimiter configuration. -/
def parseOf (d : delimiters) (input : String) : Except String (List Seg) :=
  parseSegs (effDelim d.left "\x7b\x7b").data (effDelim d.right "\x7d\x7d").data
    (input.length + 1) input.data

/-- Models `renderTemplate`: parse (wrapping a parse failure) and execute.
Execution of the embedded fragment is total, which matches `Execute` on
a `map[string]string` with variable-only actions only while the literal
text stays in the engine's plain-text context; the real engine's
escape-time context analysis can reject a parse-OK template that ends in
a non-text context, an error path this embedding does not model. -/
def renderTemplate (input : String) (values : List (String × String)) (d : delimiters) :
    Except String String :=
  match parseOf d input with
  | .error e => .error ("failed to parse template: " ++ e)
  | .ok segs => .ok (execSegs values segs)

/-! ### Patch computation (`createPatch`) -/

/-- One RFC 6902 operation as produced by the structural-diff primitive. -/
structure PatchOp where
  op : String
  path : String
  value : Option Json

/-- `lastAppliedConfigPath` in the source. -/
def lastAppliedConfigPath : String :=
  "/metadata/annotations/kubectl.kubernetes.io~1last-applied-configuration"

/-- `quackAnnotationPrefix` in the source: the path namespace of the
controller's own annotations. -/
def quackPathStart : String := "/metadata/annotations/quack.pusher.com"

/-- The post-filter loop of `createPatch`: an operation is skipped when
its path equals the kubectl last-applied-configuration path or starts
with the controller's annotation path namespace; all others are appended
in order. -/
def allowedOps : List PatchOp → List PatchOp
  | [] => []
  | op :: rest =>
    if op.path == lastAppliedConfigPath || listIsPre quackPathStart.data op.path.data then
      allowedOps rest
    else op :: allowedOps rest

/-- Models `createPatch`: run the external structural-diff primitive on
the two serialized documents (wrapping its failure), then filter.  The
final `json.Marshal` of the operation list is the identity in the
embedding (its failure is unreachable). -/
def createPatch (diff : String → String → Except String (List PatchOp))
    (oldDoc newDoc : String) : Except String (List PatchOp) :=
  match diff oldDoc newDoc with
  | .error e => .error ("error calculating patch: " ++ e)
  | .ok ops => .ok (allowedOps ops)

/-! ### Pipeline orchestrator (`Admit`) -/

/-- The slice of `admissionv1beta1.AdmissionRequest` the pipeline reads
(`Kind`, `Name` and `Namespace` feed logging only). -/
structure AdmissionRequest where
  uid : String
  operation : String
  object : Json

/-- The slice of `admissionv1beta1.AdmissionResponse` the pipeline
writes: `message` embeds `Result.Message` (absent when `Result` is never
set), `patch` the optional JSON patch. -/
structure AdmissionResponse where
  uid : String
  allowed : Bool
  message : Option String
  patch : Option (List PatchOp)

/-- Models `errorResponse`: mark the response denied and attach the
formatted message as the failure status. -/
def errorResponse (resp : AdmissionResponse) (message : String) : AdmissionResponse :=
  { resp with allowed := false, message := some message }

/-- Models `Admit`.  External collaborators are explicit parameters: the
structural-diff primitive `diff`, the result `valuesResult` of the
ConfigMap fetch `getValues`, and `visit`, the iteration order of the
annotation map inside `getTemplateInput`.  `requiredAnn` is the hook's
`RequiredAnnotation` field. -/
def Admit (diff : String → String → Except String (List PatchOp)) (requiredAnn : String)
    (valuesResult : Except String (List (String × String)))
    (visit : List String) (req : AdmissionRequest) : AdmissionResponse :=
  let resp : AdmissionResponse := { uid := req.uid, allowed := false, message := none, patch := none }
  if req.operation ≠ "CREATE" ∧ req.operation ≠ "UPDATE" then
    { resp with allowed := true }
  else
    match requestHasAnnKey requiredAnn req.object with
    | .error e => errorResponse resp ("Failed to read annotations: " ++ e)
    | .ok false => { resp with allowed := true }
    | .ok true =>
      match valuesResult with
      | .error e => errorResponse resp ("Failed to get template values: " ++ e)
      | .ok values =>
        match getDelims req.object with
        | .error e => errorResponse resp ("Invalid delimiters: " ++ e)
        | .ok delims =>
          match getTemplateInput visit req.object with
          | .error _ => errorResponse resp ""
          | .ok ti =>
            let inputText :=
              match ti with
              | some j => Json.render j
              | none => ""
            match renderTemplate inputText values delims with
            | .error e => errorResponse resp ("Error rendering template: " ++ e)
            | .ok output =>
              match createPatch diff (Json.render req.object) output with
              | .error e => errorResponse resp ("Error creating patch: " ++ e)
              | .ok ops =>
                if ops.isEmpty then { resp with allowed := true }
                else { resp with allowed := true, patch := some ops }

/-! ### Concrete fixtures used by the witnesses and counterexamples -/

/-- Surface check: is an annotation with the given key present? -/
def hasAnnKey (k : String) (j : Json) : Bool :=
  match j with
  | Json.obj fs =>
    match lookupJ "metadata" fs with
    | some (Json.obj ms) =>
      match lookupJ "annotations" ms with
      | some (Json.obj afs) => (lookupJ k afs).isSome
      | _ => false
    | _ => false
  | _ => false

/-- Surface check: is a field with the given key present at the root? -/
def hasRootKey (k : String) (j : Json) : Bool :=
  match j with
  | Json.obj fs => (lookupJ k fs).isSome
  | _ => false

/-- A reserved annotation key. -/
def kAnnA : String := "quack.pusher.com/a"

/-- A second reserved annotation key. -/
def kAnnB : String := "quack.pusher.com/b"

/-- An object carrying two reserved-prefix annotations. -/
def objTwoAnns : Json :=
  Json.obj [("metadata", Json.obj [("annotations", Json.obj
    [(kAnnA, Json.str "1"), (kAnnB, Json.str "2")])])]

/-- What the sanitizer actually hands on for `objTwoAnns` under the
iteration order `[kAnnA, kAnnB]`: only the removal of the key visited
last survives, the other reserved key is still present. -/
def sanitizedTwoAnns : Json :=
  Json.obj [("metadata", Json.obj [("annotations", Json.obj
    [(kAnnA, Json.str "1")])])]

/-- An object with no reserved-prefix annotation and no status. -/
def objNoQuack : Json :=
  Json.obj [("metadata", Json.obj [("annotations", Json.obj
    [("other", Json.str "v")])]), ("foo", Json.str "bar")]

/-- An object with one reserved annotation and a root `status` subtree. -/
def objWithStatus : Json :=
  Json.obj [("metadata", Json.obj [("annotations", Json.obj
    [(kAnnA, Json.str "1")])]),
    ("status", Json.obj [("condition", Json.str "ok")]),
    ("foo", Json.str "bar")]

/-- The sanitizer's output for `objWithStatus`: annotation gone, `status`
still present. -/
def sanitizedWithStatus : Json :=
  Json.obj [("metadata", Json.obj [("annotations", Json.obj [])]),
    ("status", Json.obj [("condition", Json.str "ok")]),
    ("foo", Json.str "bar")]

/-- A trivial instantiation of the external structural-diff primitive. -/
def diff0 : String → String → Except String (List PatchOp) := fun _ _ => .ok []

/-- Object whose two reserved annotations make the pipeline outcome
depend on the annotation-map iteration order: the value of `kAnnA` is a
malformed template expression. -/
def objOrderDep : Json :=
  Json.obj [("metadata", Json.obj [("annotations", Json.obj
    [(kAnnA, Json.str "\x7b\x7b"), (kAnnB, Json.str "x")])])]

/-- A create request for `objOrderDep`. -/
def reqOrderDep : AdmissionRequest :=
  { uid := "uid-7", operation := "CREATE", object := objOrderDep }

/-- A reserved annotation key containing the sequence `~0`: the pointer
written by the sanitizer round-trips to a different key. -/
def kAnnTilde : String := "quack.pusher.com/x~0y"

/-- An object whose only annotation is `kAnnTilde`. -/
def objTilde : Json :=
  Json.obj [("metadata", Json.obj [("annotations", Json.obj
    [(kAnnTilde, Json.str "v")])])]

/-- An update request for `objTilde`. -/
def reqTilde : AdmissionRequest :=
  { uid := "uid-8", operation := "UPDATE", object := objTilde }

/-- An object carrying only the left delimiter annotation. -/
def objOnlyLeft : Json :=
  Json.obj [("metadata", Json.obj [("annotations", Json.obj
    [(leftDelimAnnKey, Json.str "[[")])])]

/-- A create request for `objOnlyLeft`. -/
def reqOnlyLeft : AdmissionRequest :=
  { uid := "uid-4", operation := "CREATE", object := objOnlyLeft }

/-- A diff operation at a path a caller would place on an ignore list. -/
def opSpecReplicas : PatchOp :=
  { op := "replace", path := "/spec/replicas", value := some (Json.num 3) }

/-- A diff operation at a strict descendant of the kubectl
last-applied-configuration annotation path. -/
def opLacChild : PatchOp :=
  { op := "remove", path := lastAppliedConfigPath ++ "/x", value := none }

/-! ### Supporting lemmas -/

/-- The `createPatch` post-filter loop is a `List.filter`. -/
theorem allowedOps_eq_filter (ops : List PatchOp) :
    allowedOps ops = ops.filter
      (fun op => !(op.path == lastAppliedConfigPath ||
        listIsPre quackPathStart.data op.path.data)) := by
  induction ops with
  | nil => rfl
  | cons hd tl ih =>
    simp only [allowedOps, List.filter_cons, ih]
    cases h : (hd.path == lastAppliedConfigPath || listIsPre quackPathStart.data hd.path.data)
    · simp
    · simp

/-- The pipeline denies a create/update request whose delimiter
resolution fails (values fetch already succeeded, gate disabled). -/
theorem admit_denies_on_delim_error
    (diff : String → String → Except String (List PatchOp))
    (vs : List (String × String)) (visit : List String) (req : AdmissionRequest)
    (e : String) (hop : req.operation = "CREATE" ∨ req.operation = "UPDATE")
    (hdel : getDelims req.object = .error e) :
    (Admit diff "" (.ok vs) visit req).allowed = false := by
  have hcond : ¬(req.operation ≠ "CREATE" ∧ req.operation ≠ "UPDATE") := by
    rcases hop with h | h <;> simp [h]
  have hgate : requestHasAnnKey "" req.object = .ok true := rfl
  simp only [Admit, if_neg hcond, hgate, hdel, errorResponse]

/-- Prefix-or-equal on JSON-pointer paths: `p` equals `anc` or lies
strictly below it. -/
def isDescOrEq (anc p : String) : Bool :=
  p == anc || listIsPre (anc ++ "/").data p.data

/-- Modelled from the spec wording of the patch post-filter (for
comparison with `allowedOps`): drop an operation whose path equals or
descends from the last-applied-configuration path, begins with the
reserved annotation namespace, or matches a caller-supplied ignored
path. -/
def specDropOp (ignoredPaths : List String) (op : PatchOp) : Bool :=
  isDescOrEq lastAppliedConfigPath op.path ||
  listIsPre quackPathStart.data op.path.data ||
  ignoredPaths.any (fun ip => isDescOrEq ip op.path)

/-! ### The claims -/

/-- Claim C1: reserved-prefix annotation keys are supposed never to reach
the renderer nor the final patch, in particular with more than one such
annotation.  Evidence against the code: on an object with the two
reserved keys `kAnnA` and `kAnnB`, every removal patch inside
`getTemplateInput` is applied to the original object, so the sanitized
document handed to the renderer still carries the reserved key visited
first. -/
theorem c1_reserved_key_reaches_renderer :
    getTemplateInput [kAnnA, kAnnB] objTwoAnns = .ok (some sanitizedTwoAnns) ∧
    hasAnnKey kAnnA sanitizedTwoAnns = true :=
  ⟨rfl, rfl⟩

/-- Claim C2: with zero removals to perform the sanitizer is supposed to
return a byte-exact copy of the object, never nil.  Evidence against the
code: on an object without reserved-prefix annotations the loop never
assigns `patchedData`, and `getTemplateInput` returns Go's nil slice
(`none`) with no error. -/
theorem c2_sanitizer_returns_nil_without_removals :
    getTemplateInput ["other"] objNoQuack = .ok none :=
  rfl

/-- Claim C3: a root `status` field is supposed to be removed before
rendering.  Evidence against the code: `getTemplateInput` only removes
reserved-prefix annotations, and the sanitized document it returns for
`objWithStatus` still carries the root `status` subtree. -/
theorem c3_status_kept_by_sanitizer :
    getTemplateInput [kAnnA] objWithStatus = .ok (some sanitizedWithStatus) ∧
    hasRootKey "status" sanitizedWithStatus = true :=
  ⟨rfl, rfl⟩

/-- Claim C4: delimiter resolution returns the zero pair when neither
annotation is present, the configured pair when both are present and
non-empty, and otherwise fails with a configuration error on which the
pipeline denies the request instead of falling back to defaults. -/
theorem c4_delims_cases_and_denial (o : Json) (anns : List (String × String))
    (h : getObjectMeta o = .ok anns) :
    (anns.lookup leftDelimAnnKey = none → anns.lookup rightDelimAnnKey = none →
      getDelims o = .ok ⟨"", ""⟩)
    ∧ (∀ l r, anns.lookup leftDelimAnnKey = some l → anns.lookup rightDelimAnnKey = some r →
      l ≠ "" → r ≠ "" → getDelims o = .ok ⟨l, r⟩)
    ∧ (((anns.lookup leftDelimAnnKey).isSome ≠ (anns.lookup rightDelimAnnKey).isSome ∨
        anns.lookup leftDelimAnnKey = some "" ∨ anns.lookup rightDelimAnnKey = some "") →
      ∃ e, getDelims o = .error e ∧
        ∀ (diff : String → String → Except String (List PatchOp))
          (vs : List (String × String)) (visit : List String) (req : AdmissionRequest),
          req.operation = "CREATE" → req.object = o →
          (Admit diff "" (.ok vs) visit req).allowed = false) := by
  have hd : getDelims o = getDelimsFromAnns anns := by
    simp [getDelims, h]
  refine ⟨?_, ?_, ?_⟩
  · intro h1 h2
    rw [hd]
    simp [getDelimsFromAnns, h1, h2]
  · intro l r h1 h2 hl hr
    rw [hd]
    simp [getDelimsFromAnns, h1, h2, hl, hr]
  · intro hcase
    have herr : ∃ e, getDelims o = .error e := by
      rw [hd]
      cases h1 : anns.lookup leftDelimAnnKey with
      | none =>
        cases h2 : anns.lookup rightDelimAnnKey with
        | none => rw [h1, h2] at hcase; simp at hcase
        | some r =>
          exact ⟨"must set either both " ++ leftDelimAnnKey ++ " and " ++ rightDelimAnnKey ++
            ", or neither", by simp [getDelimsFromAnns, h1, h2]⟩
      | some l =>
        cases h2 : anns.lookup rightDelimAnnKey with
        | none =>
          exact ⟨"must set either both " ++ leftDelimAnnKey ++ " and " ++ rightDelimAnnKey ++
            ", or neither", by simp [getDelimsFromAnns, h1, h2]⟩
        | some r =>
          rw [h1, h2] at hcase
          have hempty : l = "" ∨ r = "" := by
            rcases hcase with hne | hl | hr
            · simp at hne
            · exact Or.inl (by injection hl)
            · exact Or.inr (by injection hr)
          refine ⟨"delimiters must not be empty", ?_⟩
          simp only [getDelimsFromAnns, h1, h2]
          rw [if_pos hempty]
    obtain ⟨e, he⟩ := herr
    refine ⟨e, he, ?_⟩
    intro diff vs visit req hop hobj
    exact admit_denies_on_delim_error diff vs visit req e (Or.inl hop) (hobj ▸ he)

/-- Witness for C4: an object carrying only the left delimiter
annotation makes `getDelims` fail and the pipeline deny. -/
theorem c4_delims_cases_and_denial_witness :
    (Admit diff0 "" (.ok []) [] reqOnlyLeft).allowed = false := by
  obtain ⟨-, -, h3⟩ :=
    c4_delims_cases_and_denial objOnlyLeft [(leftDelimAnnKey, "[[")] rfl
  obtain ⟨e, -, hdeny⟩ := h3 (Or.inl (by decide))
  exact hdeny diff0 [] [] reqOnlyLeft rfl rfl

/-- Claim C5: substituted values are supposed to be inserted as raw text
with no HTML-entity escaping.  Evidence against the code: the renderer is
built on `html/template`, and the value `<v>` substituted into a JSON
document comes out HTML-escaped as `&lt;v&gt;`, not byte-identically. -/
theorem c5_renderer_html_escapes_values :
    renderTemplate (Json.render (Json.obj [("a", Json.str "\x7b\x7b.Name\x7d\x7d")]))
      [("Name", "<v>")] ⟨"", ""⟩
      = .ok (Json.render (Json.obj [("a", Json.str "&lt;v&gt;")])) ∧
    Json.render (Json.obj [("a", Json.str "&lt;v&gt;")])
      ≠ Json.render (Json.obj [("a", Json.str "<v>")]) :=
  ⟨rfl, by decide⟩

/-- Counterexample for C6: the post-filter of `createPatch` keeps an
operation whose path is on a caller's ignored list, and keeps an
operation at a strict descendant of the last-applied-configuration path,
both of which the claim says are dropped. -/
theorem c6_filter_keeps_claimed_dropped_ops :
    specDropOp ["/spec/replicas"] opSpecReplicas = true ∧
    specDropOp [] opLacChild = true ∧
    allowedOps [opSpecReplicas, opLacChild] = [opSpecReplicas, opLacChild] :=
  ⟨rfl, rfl, rfl⟩

/-- Claim C6 as amended: the post-filter drops exactly the operations
whose path equals the last-applied-configuration path or begins with the
reserved annotation namespace path, keeping all others in diff order
(there is no ignoredPaths filtering in `createPatch`). -/
theorem c6_filter_characterization (ops : List PatchOp) :
    (∀ op, op ∈ allowedOps ops ↔
      (op ∈ ops ∧ op.path ≠ lastAppliedConfigPath ∧
        listIsPre quackPathStart.data op.path.data = false))
    ∧ (allowedOps ops).Sublist ops := by
  constructor
  · intro op
    rw [allowedOps_eq_filter, List.mem_filter]
    simp [not_or]
  · rw [allowedOps_eq_filter]
    exact List.filter_sublist ops

/-- Witness for C6 (amended): a concrete operation away from both
reserved path families is kept by the filter. -/
theorem c6_filter_characterization_witness :
    opSpecReplicas ∈ allowedOps [opSpecReplicas] :=
  ((c6_filter_characterization [opSpecReplicas]).1 opSpecReplicas).mpr
    ⟨List.mem_singleton_self _, by decide, by decide⟩

/-- Claim C7: the pipeline is supposed to give byte-identical outcomes on
identical inputs, in particular with several reserved-prefix annotations.
Evidence against the code: on `reqOrderDep` the outcome depends on the Go
map iteration order inside `getTemplateInput` — one order leaves a
malformed template value in place and the request is denied, the other
order removes it and the request is allowed. -/
theorem c7_outcome_depends_on_iteration_order :
    (Admit diff0 "" (.ok []) [kAnnA, kAnnB] reqOrderDep).allowed = false ∧
    (Admit diff0 "" (.ok []) [kAnnB, kAnnA] reqOrderDep).allowed = true :=
  ⟨rfl, rfl⟩

/-- Claim C8: every pipeline failure is supposed to deny with a non-empty
human-readable message.  Evidence against the code: a sanitizer failure
(an annotation key containing `~0` whose pointer encoding round-trips to
a different key) is answered by `errorResponse(resp, "")` — a denial
whose message is empty. -/
theorem c8_sanitizer_failure_empty_message :
    (Admit diff0 "" (.ok []) [kAnnTilde] reqTilde).allowed = false ∧
    (Admit diff0 "" (.ok []) [kAnnTilde] reqTilde).message = some "" :=
  ⟨rfl, rfl⟩

/-- Claim C10: on every branch of the pipeline the response carries the
request's UID. -/
theorem c10_response_uid_equals_request_uid
    (diff : String → String → Except String (List PatchOp)) (requiredAnn : String)
    (valuesResult : Except String (List (String × String)))
    (visit : List String) (req : AdmissionRequest) :
    (Admit diff requiredAnn valuesResult visit req).uid = req.uid := by
  simp only [Admit, errorResponse]
  repeat' split <;> try rfl

end Quack
